import Mathlib

/-!
Shallow embedding of the gateway connection core of Dis-Snek: the WebSocket
session core (`api/gateway/websocket.py`), the main gateway session
(`api/gateway/gateway.py`), the voice gateway session and RTP transport
(`api/voice/voice_gateway.py`), the voice encryptor (`api/voice/encryption.py`),
the opus encoder parameters (`api/voice/opus.py`) and the connection supervisor
(`client.py`).  Stateful methods become step functions returning the updated
state together with the list of observable effects, in program order.
-/

namespace DisSnek

/-! ## WebSocket session core: outbound send path (websocket.py, `WebsocketClient.send`) -/

/-- Observable effects of one `WebsocketClient.send` call, in order. -/
inductive SendEffect
  | rateLimit  -- `await self.rl_manager.rate_limit()`: consumes a token of the bucket
  | sendStr    -- `await self.ws.send_str(data)`: the socket write
deriving DecidableEq, Repr

/-- `WebsocketClient.send(data, bypass)`: under the race lock, consult the rate
limiter unless `bypass` is set, then write the serialized frame to the socket. -/
def WebsocketClient.send (bypass : Bool) : List SendEffect :=
  (if bypass then [] else [SendEffect.rateLimit]) ++ [SendEffect.sendStr]

/-- `WebsocketClient.send_json(data, bypass)` serializes and delegates to `send`
with the same `bypass` flag; `bypass` defaults to `false`. -/
def WebsocketClient.send_json (bypass : Bool) : List SendEffect :=
  WebsocketClient.send bypass

/-- `GatewayClient.send_heartbeat` (gateway.py line 283) calls
`self.send_json({"op": OPCODE.HEARTBEAT, "d": self.sequence}, True)`:
the bypass flag is passed as `True`. -/
def GatewayClient.send_heartbeat_effects : List SendEffect :=
  WebsocketClient.send_json true

/-- `VoiceGateway.send_heartbeat` (voice_gateway.py line 290) calls
`self.send_json({"op": OP.HEARTBEAT, "d": random.uniform(0.0, 1.0)})`:
no bypass argument, so the default `bypass=False` applies. -/
def VoiceGateway.send_heartbeat_effects : List SendEffect :=
  WebsocketClient.send_json false

/-! ## WebSocket session core: binary-fragment reassembly (websocket.py lines
217-227 and, identically, voice_gateway.py lines 148-158) -/

/-- The 4-byte zlib full-flush marker `00 00 FF FF`. -/
def zlibSuffix : List Nat := [0x00, 0x00, 0xFF, 0xFF]

/-- Python `xs[-n:]`: the last `n` elements of `xs` (all of `xs` when shorter). -/
def lastN (n : Nat) (xs : List Nat) : List Nat := xs.drop (xs.length - n)

/-- One binary fragment step of `receive`: `buffer.extend(resp.data)`; then
`if len(resp.data) < 4 or resp.data[-4:] != b"\x00\x00\xff\xff": continue`;
otherwise the accumulated buffer is inflated and returned.  The result is the
buffer carried to the next iteration together with the emitted payload, if any
(the payload is the raw accumulated compressed bytes handed to the
decompressor). -/
def receiveBinStep (buffer frag : List Nat) : List Nat × Option (List Nat) :=
  let buffer' := buffer ++ frag
  if frag.length < 4 ∨ lastN 4 frag ≠ zlibSuffix then (buffer', none)
  else ([], some buffer')

/-! ## WebSocket session core: JSON decoding of a completed frame
(websocket.py lines 229-235, voice_gateway.py lines 160-165) -/

/-- What `receive` does with the text of a completed frame once
`OverriddenJson.loads` has been attempted on it. -/
inductive JsonOutcome (V : Type)
  | returnParsed (v : V)    -- `return msg` with `msg` the parsed payload
  | skipFrame               -- `log.error(e)` then `continue`: next frame
  | returnRaw (s : String)  -- `return msg` with `msg` still the undecoded text
deriving DecidableEq, Repr

/-- Main gateway `receive` (websocket.py): on parse failure it logs the error
and `continue`s, so no value is returned for this frame. -/
def WebsocketClient.handleJson {V : Type} (_msg : String) (parsed : Option V) :
    JsonOutcome V :=
  match parsed with
  | some v => JsonOutcome.returnParsed v
  | none => JsonOutcome.skipFrame

/-- Voice gateway `receive` (voice_gateway.py): the `except` clause logs the
error but does not `continue`, so control falls through to `return msg` with
`msg` still the undecoded string. -/
def VoiceGateway.handleJson {V : Type} (msg : String) (parsed : Option V) :
    JsonOutcome V :=
  match parsed with
  | some v => JsonOutcome.returnParsed v
  | none => JsonOutcome.returnRaw msg

/-! ## WebSocket session core: close-frame handling inside `receive` -/

/-- Outcome of handling a peer `WSMsgType.CLOSE` frame with close code `code`. -/
inductive CloseOutcome
  | raiseClosed (code : Int)  -- raise WebSocketClosed(code) / VoiceWebSocketClosed(code)
  | reconnect (resume : Bool) -- `await self.reconnect(...)` then continue receiving
deriving DecidableEq, Repr

/-- Main gateway close handling (websocket.py lines 176-187), non-forced receive:
`if resp.data >= 4000: raise WebSocketClosed(resp.data)`, otherwise
`await self.reconnect(code=resp.data, resume=resp.data != 1000)`. -/
def WebsocketClient.handleClose (code : Int) : CloseOutcome :=
  if code ≥ 4000 then CloseOutcome.raiseClosed code
  else CloseOutcome.reconnect (code ≠ 1000)

/-- Voice gateway close handling (voice_gateway.py lines 112-118):
`if resp.data == 4014: self.ready.clear(); await self.reconnect(); continue`
(`reconnect`'s `resume` defaults to `False`), otherwise
`raise VoiceWebSocketClosed(resp.data)`. -/
def VoiceGateway.handleClose (code : Int) : CloseOutcome :=
  if code = 4014 then CloseOutcome.reconnect false
  else CloseOutcome.raiseClosed code

/-! ## Main gateway session state, reconnect and opcode routing
(gateway.py, `GatewayClient`) -/

/-- The per-session fields of `GatewayClient` that the reconnect and opcode
paths read or write.  `sequence` and `session_id` start as `None` and are set by
the READY dispatch; `acknowledged` is the `_acknowledged` event. -/
structure GatewayState where
  sequence : Option Int
  session_id : Option String
  acknowledged : Bool
deriving DecidableEq, Repr

/-- Frames the main gateway writes on a socket, as far as the claims observe
them.  `resumeFrame` carries the `session_id` and `seq` fields of the RESUME
payload built by `_resume_connection` (gateway.py line 273). -/
inductive GatewayFrame
  | identify
  | resumeFrame (session_id : Option String) (seq : Option Int)
  | heartbeat (seq : Option Int)
deriving DecidableEq, Repr

/-- `WebsocketClient.reconnect(resume, code)` (websocket.py lines 237-258) as run
by the main gateway: under the race lock, close and replace the socket, reset
the zlib context, receive HELLO, then `self._identify()` when `resume` is false
and `self._resume_connection()` otherwise, finally set the `_closed` and
`_acknowledged` events.  `sequence` and `session_id` are not written anywhere on
this path.  Returns the state after the call and the frames sent on the new
socket. -/
def GatewayClient.reconnect (st : GatewayState) (resume : Bool) :
    GatewayState × List GatewayFrame :=
  ({ st with acknowledged := true },
   if resume then [GatewayFrame.resumeFrame st.session_id st.sequence]
   else [GatewayFrame.identify])

/-- The opcodes `GatewayClient.dispatch_opcode` (gateway.py lines 178-205)
matches on. -/
inductive GatewayOpcode
  | heartbeat
  | heartbeat_ack
  | reconnectOp
  | invalidate_session
  | otherOp
deriving DecidableEq, Repr

/-- `GatewayClient.dispatch_opcode(data, op)` (gateway.py lines 178-205),
restricted to the state and frames the claims concern.  `d` is the payload,
which for INVALIDATE_SESSION is the boolean resumability flag; HEARTBEAT sends
a heartbeat immediately, HEARTBEAT_ACK sets `_acknowledged`, RECONNECT is
`reconnect(resume=True)` and INVALIDATE_SESSION is `reconnect(resume=data)`. -/
def GatewayClient.dispatch_opcode (st : GatewayState) (op : GatewayOpcode)
    (d : Bool) : GatewayState × List GatewayFrame :=
  match op with
  | GatewayOpcode.heartbeat => (st, [GatewayFrame.heartbeat st.sequence])
  | GatewayOpcode.heartbeat_ack => ({ st with acknowledged := true }, [])
  | GatewayOpcode.reconnectOp => GatewayClient.reconnect st true
  | GatewayOpcode.invalidate_session => GatewayClient.reconnect st d
  | GatewayOpcode.otherOp => (st, [])

/-- Pre-dispatch bookkeeping of `GatewayClient.run` (gateway.py lines 161-167):
`seq = msg.get("s")` is `None` or an integer, and `if seq: self.sequence = seq`
overwrites the stored sequence only when `seq` is truthy (Python: not `None`
and not `0`). -/
def GatewayClient.runSeqUpdate (sequence : Option Int) (s : Option Int) :
    Option Int :=
  match s with
  | none => sequence
  | some v => if v ≠ 0 then some v else sequence

/-- What one iteration of `GatewayClient.run`'s loop does after a frame is
decoded: for a DISPATCH frame a task is spawned; `seqAtSpawn` records the value
of `self.sequence` at the moment `asyncio.create_task` runs. -/
inductive RunAction
  | spawnDispatch (seqAtSpawn : Option Int)
  | opcodeInline
deriving DecidableEq, Repr

/-- One frame of `GatewayClient.run`'s loop (gateway.py lines 161-176): first
update `sequence` from the frame's `s` field, then either spawn the dispatch
task (when `op == OPCODE.DISPATCH`) or hand the frame to `dispatch_opcode`
inline. -/
def GatewayClient.runFrame (st : GatewayState) (isDispatch : Bool)
    (s : Option Int) : GatewayState × RunAction :=
  let st' := { st with sequence := GatewayClient.runSeqUpdate st.sequence s }
  if isDispatch then (st', RunAction.spawnDispatch st'.sequence)
  else (st', RunAction.opcodeInline)

/-! ## WebSocket session core: the heartbeater (`_start_bee_gees`,
websocket.py lines 284-303) -/

/-- Observable actions of one heartbeater loop iteration, in order. -/
inductive HBAction
  | reconnectResume (resume : Bool)  -- `await self.reconnect(resume=True)`
  | sendHeartbeat                    -- `await self.send_heartbeat()`
deriving DecidableEq, Repr

/-- One iteration of the `while not self._kill_bee_gees.is_set()` body: if
`_acknowledged` is still clear from the previous cycle, reconnect with
`resume=True` (and `reconnect` ends by setting `_acknowledged`); then clear
`_acknowledged`, send the heartbeat, and wait out the interval.  The state is
the `_acknowledged` event at the start of the tick; the returned flag is its
value when the next tick fires absent any HEARTBEAT_ACK in between. -/
def beeGeesTick (acknowledged : Bool) : Bool × List HBAction :=
  let acts := if acknowledged then [] else [HBAction.reconnectResume true]
  (false, acts ++ [HBAction.sendHeartbeat])

/-! ## Voice gateway: encryption mode negotiation
(voice_gateway.py lines 179-189 and 309-318, encryption.py) -/

/-- `Encryption.SUPPORTED` (encryption.py lines 5-9); `xsalsa20_poly1305_lite`
is commented out in the source. -/
def Encryption.SUPPORTED : List String :=
  ["xsalsa20_poly1305_suffix", "xsalsa20_poly1305"]

/-- voice_gateway.py line 184:
`self.voice_modes = [mode for mode in data["modes"] if mode in Encryption.SUPPORTED]`. -/
def VoiceGateway.negotiateModes (serverModes : List String) : List String :=
  serverModes.filter (fun m => Encryption.SUPPORTED.contains m)

/-- Python exceptions the voice mode-selection path can raise.  The code
defines no `UnsupportedMode` error anywhere: `self.voice_modes[0]` on an empty
list raises `IndexError`, and `Encryption.encrypt` raises a bare
`RuntimeError` for a mode string outside its match. -/
inductive PyErr
  | indexError
  | runtimeError
deriving DecidableEq, Repr

/-- `self.voice_modes[0]` as evaluated by `_select_protocol` (voice_gateway.py
line 315) and `generate_packet` (line 271): the first element of the negotiated
list, or a Python `IndexError` when the list is empty. -/
def VoiceGateway.selectedMode (voice_modes : List String) :
    Except PyErr String :=
  match voice_modes with
  | [] => Except.error PyErr.indexError
  | m :: _ => Except.ok m

/-! ## Voice RTP transport counters (`send_packet`, voice_gateway.py
lines 273-287) -/

/-- The outbound RTP counters of `VoiceGateway`: `sock_sequence` and
`timestamp`, both initialized to 0 (voice_gateway.py lines 65-66). -/
structure RTPCounters where
  sock_sequence : Nat
  timestamp : Nat
deriving DecidableEq, Repr

/-- The counter updates of `VoiceGateway.send_packet`:
`self.sock_sequence += 1`; `if self.sock_sequence > 0xFFFF: self.sock_sequence = 0`;
`if self.timestamp > 0xFFFFFFFF: self.timestamp = 0`; then the packet is built
(packing the post-reset `timestamp`) and sent, and finally
`self.timestamp += encoder.samples_per_frame`. -/
def VoiceGateway.send_packet_counters (st : RTPCounters)
    (samples_per_frame : Nat) : RTPCounters :=
  let seq := st.sock_sequence + 1
  let seq' := if seq > 0xFFFF then 0 else seq
  let ts := if st.timestamp > 0xFFFFFFFF then 0 else st.timestamp
  { sock_sequence := seq', timestamp := ts + samples_per_frame }

/-- `Encoder.samples_per_frame` (opus.py lines 169-171):
`int(self.sample_rate / 1000 * self.frame_length)` with `sample_rate = 48000`
and `frame_length = 20` fixed in `__init__`. -/
def Encoder.samples_per_frame (sample_rate frame_length : Nat) : Nat :=
  sample_rate / 1000 * frame_length

/-! ## Connection supervisor (`Snake._ws_connect`, client.py lines 80-132) -/

/-- The exceptions `_ws_connect`'s `except` clauses distinguish when `run()`
ends.  `osError` carries Python's `errno`; `clientError` stands for
`aiohttp.ClientError` and `timeoutError` for `asyncio.TimeoutError`. -/
inductive RunExc
  | webSocketRestart (resume : Bool)
  | webSocketClosed (code : Int)
  | osError (errno : Int)
  | gatewayNotFound
  | clientError
  | timeoutError
  | otherExc
deriving DecidableEq, Repr

/-- The connection parameters `_ws_connect` keeps across attempts
(`params` dict: `resume`, `session_id`, `sequence`). -/
structure ConnectParams where
  resume : Bool
  session_id : Option String
  sequence : Option Int
deriving DecidableEq, Repr

/-- How one supervisor iteration ends. -/
inductive SupervisorStep
  | retry (params : ConnectParams)  -- sleep 1-5 s, loop with updated params
  | stop                            -- `return` (clean close, code 1000)
  | fatal (code : Int)              -- `raise SnakeException(...)` for 4011/4013/4014
  | reraise (exc : RunExc)          -- bare `raise`
deriving DecidableEq, Repr

/-- The classification `Snake._ws_connect` applies to the exception that ended
`run()` (client.py lines 96-131), given the session's `session_id` and
`sequence` at that moment.  Only `WebSocketRestart{resume=True}` and an
`OSError` with `errno` 54 or 10054 retry with `resume=True` carrying the
current session; every other retried error resets
`resume=False, session_id=None, sequence=None`. -/
def Snake.wsConnectStep (e : RunExc) (session_id : Option String)
    (sequence : Option Int) : SupervisorStep :=
  match e with
  | RunExc.webSocketRestart r =>
      if r then SupervisorStep.retry ⟨true, session_id, sequence⟩
      else SupervisorStep.retry ⟨false, none, none⟩
  | RunExc.webSocketClosed code =>
      if code = 1000 then SupervisorStep.stop
      else if code = 4011 ∨ code = 4013 ∨ code = 4014 then SupervisorStep.fatal code
      else SupervisorStep.reraise (RunExc.webSocketClosed code)
  | RunExc.osError errno =>
      if errno = 54 ∨ errno = 10054 then SupervisorStep.retry ⟨true, session_id, sequence⟩
      else SupervisorStep.retry ⟨false, none, none⟩
  | RunExc.gatewayNotFound => SupervisorStep.retry ⟨false, none, none⟩
  | RunExc.clientError => SupervisorStep.retry ⟨false, none, none⟩
  | RunExc.timeoutError => SupervisorStep.retry ⟨false, none, none⟩
  | RunExc.otherExc => SupervisorStep.retry ⟨false, none, none⟩

/-! ## Helper lemmas -/

/-- When the fragment holds at least 4 bytes, the last 4 bytes of the extended
buffer are the last 4 bytes of the fragment. -/
theorem lastN_append_of_le (buffer frag : List Nat) (h : 4 ≤ frag.length) :
    lastN 4 (buffer ++ frag) = lastN 4 frag := by
  unfold lastN
  rw [List.length_append,
    show buffer.length + frag.length - 4 = buffer.length + (frag.length - 4) by omega,
    List.drop_append]

/-! ## Claims -/

/-- C1: on opcode INVALIDATE_SESSION with payload `d`, the main gateway calls
`reconnect(resume=d)`; the claim additionally asserts that when `d` is false,
`session_id` and `sequence` are cleared before the new connection identifies.
The code never clears them: starting from `sequence = 5`, `session_id = "abc"`,
handling INVALIDATE_SESSION with `d = false` leaves both fields intact. -/
theorem C1_counterexample :
    ((GatewayClient.dispatch_opcode ⟨some 5, some "abc", true⟩
        GatewayOpcode.invalidate_session false).1.session_id = some "abc") ∧
    ((GatewayClient.dispatch_opcode ⟨some 5, some "abc", true⟩
        GatewayOpcode.invalidate_session false).1.sequence = some 5) :=
  ⟨rfl, rfl⟩

/-- C1 (amended): on opcode INVALIDATE_SESSION with boolean payload `d`, the
main gateway reconnects with `resume = d`; when `d` is false the only frame
sent on the new socket is IDENTIFY (never RESUME); `session_id` and `sequence`
are left unchanged by the reconnect rather than cleared. -/
theorem C1_invalidate_session (st : GatewayState) (d : Bool) :
    GatewayClient.dispatch_opcode st GatewayOpcode.invalidate_session d =
      GatewayClient.reconnect st d ∧
    (d = false →
      (GatewayClient.dispatch_opcode st GatewayOpcode.invalidate_session d).2 =
        [GatewayFrame.identify]) ∧
    (GatewayClient.dispatch_opcode st
        GatewayOpcode.invalidate_session d).1.session_id = st.session_id ∧
    (GatewayClient.dispatch_opcode st
        GatewayOpcode.invalidate_session d).1.sequence = st.sequence := by
  refine ⟨rfl, ?_, rfl, rfl⟩
  rintro rfl
  rfl

/-- C1 witness: concrete run of the amended theorem at `d = false`. -/
theorem C1_invalidate_session_witness :
    (GatewayClient.dispatch_opcode ⟨some 7, some "sid", true⟩
        GatewayOpcode.invalidate_session false).2 = [GatewayFrame.identify] :=
  (C1_invalidate_session ⟨some 7, some "sid", true⟩ false).2.1 rfl

/-- C2: on every heartbeater tick, if the previous heartbeat was not
acknowledged the session reconnects exactly once, with `resume = true` and
never with `resume = false`, and then sends the next heartbeat as the tick's
final action; if the previous heartbeat was acknowledged, the tick performs no
reconnect.  After the tick the acknowledged flag is clear again (a heartbeat is
pending). -/
theorem C2_heartbeat_tick (acknowledged : Bool) :
    ((beeGeesTick acknowledged).2.count (HBAction.reconnectResume true) =
      if acknowledged then 0 else 1) ∧
    ((beeGeesTick acknowledged).2.count (HBAction.reconnectResume false) = 0) ∧
    (beeGeesTick acknowledged).2.getLast? = some HBAction.sendHeartbeat ∧
    (beeGeesTick acknowledged).1 = false := by
  cases acknowledged <;> exact ⟨rfl, rfl, rfl, rfl⟩

/-- C3: the claim says a message is emitted exactly when the accumulated
buffer ends with `00 00 FF FF`.  The code instead tests the last 4 bytes of
the individual fragment.  With buffer `[00 00]` and a 2-byte terminating
fragment `[FF FF]`, the accumulated buffer `[00 00 FF FF]` ends with the
suffix, yet no message is emitted. -/
theorem C3_counterexample :
    (receiveBinStep [0, 0] [255, 255]).2 = none ∧
    lastN 4 ([0, 0] ++ [255, 255]) = zlibSuffix := by decide

/-- C3 (amended): a binary fragment step emits the accumulated buffer exactly
when the fragment itself is at least 4 bytes long and its last 4 bytes are the
zlib full-flush suffix.  No message is emitted early: whenever a message is
emitted, the accumulated buffer does end with the suffix.  A terminating
fragment shorter than 4 bytes is however missed even when the buffer ends with
the suffix. -/
theorem C3_fragment_reassembly (buffer frag : List Nat) :
    (receiveBinStep buffer frag).2 =
      (if 4 ≤ frag.length ∧ lastN 4 frag = zlibSuffix
       then some (buffer ++ frag) else none) ∧
    ((receiveBinStep buffer frag).2.isSome →
      lastN 4 (buffer ++ frag) = zlibSuffix) := by
  have key : (receiveBinStep buffer frag).2 =
      if 4 ≤ frag.length ∧ lastN 4 frag = zlibSuffix
      then some (buffer ++ frag) else none := by
    simp only [receiveBinStep]
    split_ifs with h1 h2 h3
    · rcases h1 with h | h
      · omega
      · exact absurd h2.2 h
    · rfl
    · rfl
    · push_neg at h1
      exact absurd ⟨by omega, h1.2⟩ h3
  refine ⟨key, ?_⟩
  intro hs
  rw [key] at hs
  by_cases hc : 4 ≤ frag.length ∧ lastN 4 frag = zlibSuffix
  · exact (lastN_append_of_le buffer frag hc.1).trans hc.2
  · rw [if_neg hc] at hs
    simp at hs

/-- C3 witness: a 4-byte terminating fragment ending with the suffix makes the
step emit, and then the accumulated buffer ends with the suffix. -/
theorem C3_fragment_reassembly_witness :
    lastN 4 ([1] ++ [0, 0, 255, 255]) = zlibSuffix :=
  (C3_fragment_reassembly [1] [0, 0, 255, 255]).2 (by decide)

/-- C4: the claim says both gateways reconnect without resume on close code
1000.  The voice gateway instead raises `VoiceWebSocketClosed(1000)`: the only
close code it reconnects on is 4014. -/
theorem C4_counterexample :
    VoiceGateway.handleClose 1000 = CloseOutcome.raiseClosed 1000 ∧
    VoiceGateway.handleClose 1000 ≠ CloseOutcome.reconnect false := by decide

/-- C4 (amended): the main gateway maps a peer CLOSE to: code ≥ 4000 raise
`WebSocketClosed(code)`; code 1000 reconnect without resume; any other code
reconnect with resume.  The voice gateway does not follow this taxonomy: it
reconnects (without resume) only on code 4014 and raises
`VoiceWebSocketClosed(code)` for every other code, including 1000 and all
codes ≥ 4000. -/
theorem C4_close_codes (code : Int) :
    (code ≥ 4000 → WebsocketClient.handleClose code = CloseOutcome.raiseClosed code) ∧
    (code < 4000 → code = 1000 →
      WebsocketClient.handleClose code = CloseOutcome.reconnect false) ∧
    (code < 4000 → code ≠ 1000 →
      WebsocketClient.handleClose code = CloseOutcome.reconnect true) ∧
    VoiceGateway.handleClose 4014 = CloseOutcome.reconnect false ∧
    (code ≠ 4014 → VoiceGateway.handleClose code = CloseOutcome.raiseClosed code) := by
  refine ⟨?_, ?_, ?_, by decide, ?_⟩
  · intro h
    unfold WebsocketClient.handleClose
    rw [if_pos h]
  · rintro h rfl
    decide
  · intro h h'
    unfold WebsocketClient.handleClose
    rw [if_neg (by omega)]
    exact congrArg CloseOutcome.reconnect (decide_eq_true h')
  · intro h
    unfold VoiceGateway.handleClose
    rw [if_neg h]

/-- C4 witness: concrete close codes exercising each hypothesis of the amended
theorem. -/
theorem C4_close_codes_witness :
    WebsocketClient.handleClose 4001 = CloseOutcome.raiseClosed 4001 ∧
    WebsocketClient.handleClose 1000 = CloseOutcome.reconnect false ∧
    WebsocketClient.handleClose 1006 = CloseOutcome.reconnect true ∧
    VoiceGateway.handleClose 1006 = CloseOutcome.raiseClosed 1006 :=
  ⟨(C4_close_codes 4001).1 (by decide),
   (C4_close_codes 1000).2.1 (by decide) rfl,
   (C4_close_codes 1006).2.2.1 (by decide) (by decide),
   (C4_close_codes 1006).2.2.2.2 (by decide)⟩

/-- C5: the claim says every heartbeat send bypasses the rate limiter on both
gateways.  The voice gateway's `send_heartbeat` calls `send_json` without the
bypass flag, so its heartbeat consults (and consumes a token of) the rate
limiter. -/
theorem C5_counterexample :
    SendEffect.rateLimit ∈ VoiceGateway.send_heartbeat_effects := by decide

/-- C5 (amended): the main gateway's heartbeat passes `bypass=True` and
reaches the socket write without consulting the rate limiter; sends without
bypass (the default used by all non-heartbeat frames) consume a token; the
voice gateway's heartbeat omits the flag and therefore does consume a token. -/
theorem C5_heartbeat_bypass :
    SendEffect.rateLimit ∉ GatewayClient.send_heartbeat_effects ∧
    SendEffect.sendStr ∈ GatewayClient.send_heartbeat_effects ∧
    SendEffect.rateLimit ∈ WebsocketClient.send false ∧
    SendEffect.rateLimit ∉ WebsocketClient.send true ∧
    SendEffect.rateLimit ∈ VoiceGateway.send_heartbeat_effects := by decide

/-- C6: the claim says both receive loops skip a frame whose payload is not
valid JSON.  The voice gateway's `except` clause logs but lacks a `continue`,
so `receive` returns the undecoded string. -/
theorem C6_counterexample :
    @VoiceGateway.handleJson Nat "not json" none =
      JsonOutcome.returnRaw "not json" ∧
    @VoiceGateway.handleJson Nat "not json" none ≠ JsonOutcome.skipFrame :=
  ⟨rfl, fun h => JsonOutcome.noConfusion h⟩

/-- C6 (amended): on a frame whose payload fails JSON parsing, the main
gateway's receive loop emits nothing for the frame and continues to the next
one; the voice gateway's receive instead returns the undecoded string. -/
theorem C6_invalid_json (V : Type) (msg : String) :
    @WebsocketClient.handleJson V msg none = JsonOutcome.skipFrame ∧
    @VoiceGateway.handleJson V msg none = JsonOutcome.returnRaw msg :=
  ⟨rfl, rfl⟩

/-- C7: the claim says an empty intersection of server-offered and locally
supported modes fails with `UnsupportedMode`.  No such error exists in the
code: the negotiated list for a server offering only `aes256_gcm` is empty,
and selecting `voice_modes[0]` raises a Python `IndexError`. -/
theorem C7_counterexample :
    VoiceGateway.negotiateModes ["aes256_gcm"] = [] ∧
    VoiceGateway.selectedMode (VoiceGateway.negotiateModes ["aes256_gcm"]) =
      Except.error PyErr.indexError :=
  ⟨rfl, rfl⟩

/-- C7 (amended): the negotiated list is the server-offered modes filtered to
the locally supported set with server order preserved (it is a sublist of the
server list containing exactly the supported offered modes), and the selected
mode is its first element; when the intersection is empty the selection fails
with an `IndexError` (the code defines no `UnsupportedMode` error). -/
theorem C7_mode_selection (serverModes : List String) :
    List.Sublist (VoiceGateway.negotiateModes serverModes) serverModes ∧
    (∀ m, m ∈ VoiceGateway.negotiateModes serverModes ↔
        m ∈ serverModes ∧ m ∈ Encryption.SUPPORTED) ∧
    VoiceGateway.selectedMode (VoiceGateway.negotiateModes serverModes) =
      (match (VoiceGateway.negotiateModes serverModes).head? with
       | some m => Except.ok m
       | none => Except.error PyErr.indexError) := by
  refine ⟨List.filter_sublist _, ?_, ?_⟩
  · intro m
    constructor
    · intro h
      obtain ⟨hm, hc⟩ := List.mem_filter.mp h
      exact ⟨hm, List.elem_iff.mp hc⟩
    · intro ⟨hm, hs⟩
      exact List.mem_filter.mpr ⟨hm, List.elem_iff.mpr hs⟩
  · cases VoiceGateway.negotiateModes serverModes <;> rfl

/-- C9: `send_packet` increments the RTP sequence by one, wrapping to 0 at
0x10000; it resets the timestamp to 0 exactly when it has overflowed past
0xFFFFFFFF, and otherwise advances it by `encoder.samples_per_frame` after the
packet is sent; both counters are strictly monotone between wraps. -/
theorem C9_rtp_counters (st : RTPCounters) (spf : Nat)
    (hseq : st.sock_sequence ≤ 0xFFFF) :
    (VoiceGateway.send_packet_counters st spf).sock_sequence =
      (st.sock_sequence + 1) % 0x10000 ∧
    (0xFFFFFFFF < st.timestamp →
      (VoiceGateway.send_packet_counters st spf).timestamp = spf) ∧
    (st.timestamp ≤ 0xFFFFFFFF →
      (VoiceGateway.send_packet_counters st spf).timestamp = st.timestamp + spf) ∧
    (st.sock_sequence < 0xFFFF →
      st.sock_sequence < (VoiceGateway.send_packet_counters st spf).sock_sequence) ∧
    (st.timestamp ≤ 0xFFFFFFFF → 0 < spf →
      st.timestamp < (VoiceGateway.send_packet_counters st spf).timestamp) := by
  unfold VoiceGateway.send_packet_counters
  refine ⟨?_, ?_, ?_, ?_, ?_⟩
  · dsimp only
    split <;> rename_i h
    · omega
    · omega
  · intro h
    dsimp only
    rw [if_pos h]
    omega
  · intro h
    dsimp only
    rw [if_neg (by omega)]
  · intro h
    dsimp only
    rw [if_neg (by omega)]
    omega
  · intro h h'
    dsimp only
    rw [if_neg (by omega)]
    omega

/-- C9 witness: concrete run at the sequence wrap boundary and a timestamp
overflow, with the opus encoder's fixed `samples_per_frame` of
48000 / 1000 * 20 = 960. -/
theorem C9_rtp_counters_witness :
    (VoiceGateway.send_packet_counters ⟨0xFFFF, 0x100000000⟩
        (Encoder.samples_per_frame 48000 20)).sock_sequence =
      (0xFFFF + 1) % 0x10000 ∧
    (VoiceGateway.send_packet_counters ⟨0xFFFF, 0x100000000⟩
        (Encoder.samples_per_frame 48000 20)).timestamp =
      Encoder.samples_per_frame 48000 20 :=
  ⟨(C9_rtp_counters ⟨0xFFFF, 0x100000000⟩ _ (by decide)).1,
   (C9_rtp_counters ⟨0xFFFF, 0x100000000⟩ _ (by decide)).2.1 (by decide)⟩

/-- C10: in the main gateway run loop, `sequence` is updated from the frame's
`s` field only when `s` is truthy: `s = null` and `s = 0` leave it unchanged,
any nonzero `s` overwrites it, and the update is applied before the dispatch
task is spawned (the spawned task observes the updated sequence). -/
theorem C10_seq_truthy (sequence : Option Int) (s : Option Int)
    (st : GatewayState) :
    GatewayClient.runSeqUpdate sequence none = sequence ∧
    GatewayClient.runSeqUpdate sequence (some 0) = sequence ∧
    (∀ v : Int, v ≠ 0 → GatewayClient.runSeqUpdate sequence (some v) = some v) ∧
    (GatewayClient.runFrame st true s).1.sequence =
      GatewayClient.runSeqUpdate st.sequence s ∧
    (GatewayClient.runFrame st true s).2 =
      RunAction.spawnDispatch (GatewayClient.runSeqUpdate st.sequence s) := by
  refine ⟨rfl, ?_, ?_, rfl, rfl⟩
  · simp [GatewayClient.runSeqUpdate]
  · intro v hv
    simp [GatewayClient.runSeqUpdate, hv]

/-- C10 witness: concrete run showing a nonzero `s` overwriting the stored
sequence. -/
theorem C10_seq_truthy_witness :
    GatewayClient.runSeqUpdate (some 3) (some 5) = some 5 :=
  (C10_seq_truthy (some 3) (some 5) ⟨none, none, true⟩).2.2.1 5 (by decide)

/-- C8: the claim says every OS/network error retries with resume whenever a
session_id is present.  A timeout with `session_id = "abc"`, `sequence = 5`
present retries with `resume = False` and the session cleared. -/
theorem C8_counterexample :
    Snake.wsConnectStep RunExc.timeoutError (some "abc") (some 5) =
      SupervisorStep.retry ⟨false, none, none⟩ ∧
    Snake.wsConnectStep RunExc.timeoutError (some "abc") (some 5) ≠
      SupervisorStep.retry ⟨true, some "abc", some 5⟩ :=
  ⟨rfl, by decide⟩

/-- C8 (amended): every OS/network error ending a run is retried, but the
supervisor resumes only when the error is an `OSError` whose errno is 54 or
10054 (connection reset), in which case the current `session_id` and
`sequence` are carried over; timeouts, HTTP client errors, gateway-not-found
and other OS errors retry with `resume = False` and the session parameters
cleared, regardless of whether a session_id is present. -/
theorem C8_supervisor_retry (session_id : Option String) (sequence : Option Int)
    (errno : Int) :
    Snake.wsConnectStep (RunExc.osError errno) session_id sequence =
      (if errno = 54 ∨ errno = 10054
       then SupervisorStep.retry ⟨true, session_id, sequence⟩
       else SupervisorStep.retry ⟨false, none, none⟩) ∧
    Snake.wsConnectStep RunExc.timeoutError session_id sequence =
      SupervisorStep.retry ⟨false, none, none⟩ ∧
    Snake.wsConnectStep RunExc.clientError session_id sequence =
      SupervisorStep.retry ⟨false, none, none⟩ ∧
    Snake.wsConnectStep RunExc.gatewayNotFound session_id sequence =
      SupervisorStep.retry ⟨false, none, none⟩ :=
  ⟨rfl, rfl, rfl, rfl⟩

end DisSnek
